import Mathlib

/-!
Shallow embedding of `src/kagimcplocal/server.py` (the kagi_mcp_local
repository) and verification of the specified properties of its two core
pure/structural functions:

* `BrowserManager.fetch_search_results` (server.py lines 95-180): per-query
  result extraction followed by a concurrent content-fetch fan-in.  The
  browser interaction is abstracted as an environment `env : String →
  PageOutcome` giving, for each query, either the exception raised while
  opening the search page / waiting for the results container, or the list
  of result nodes found in document order; the gathered outcome of each
  scheduled content-fetch task is abstracted as a list
  `outcomes : List (Except String String)` aligned with task-creation order
  (exactly what `asyncio.gather(..., return_exceptions=True)` returns).

* `format_search_results` (server.py lines 252-319), which is already a pure
  function in the source and is embedded directly.
-/

/-- The `SearchResult` dataclass (server.py lines 199-204). -/
structure SearchResult where
  title : String
  url : String
  snippet : Option String := none
  content : Option String := none
  deriving DecidableEq

/-- One raw result node as seen by the extractor: each of the three selector
lookups (title link, URL link, snippet block; server.py lines 115-135) may
miss, so title text, link target and snippet text are all optional. -/
structure ResultNode where
  title : Option String
  url : Option String
  snippet : Option String
  deriving DecidableEq

/-- Python truthiness of an optional string: `None` and `""` are falsy. -/
def optTruthy : Option String → Bool
  | none => false
  | some s => !s.data.isEmpty

/-- The `if title and url:` guard of server.py line 137. -/
def nodeValid (n : ResultNode) : Bool :=
  optTruthy n.title && optTruthy n.url

/-- The `SearchResult` constructed from a node that passed the guard
(server.py lines 141-143); `content` starts absent. -/
def mkSearchResult (n : ResultNode) : SearchResult :=
  { title := n.title.getD "", url := n.url.getD "", snippet := n.snippet,
    content := none }

/-- The per-query loop over result nodes (server.py lines 115-151): a node
failing the title/url guard is skipped without being counted; once the
per-query counter has reached `results_max`, the next counted node triggers
`break`; otherwise the result is emitted and the counter incremented. -/
def extractLoop (results_max : Nat) : List ResultNode → Nat → List SearchResult
  | [], _ => []
  | n :: rest, count =>
    if nodeValid n then
      if count ≥ results_max then []
      else mkSearchResult n :: extractLoop results_max rest (count + 1)
    else extractLoop results_max rest count

/-- Outcome of opening the search page for one query: the exception caught at
server.py lines 155-157, or the result nodes in document order. -/
inductive PageOutcome where
  | failure (msg : String)
  | success (nodes : List ResultNode)
  deriving DecidableEq

/-- Python dict assignment `d[k] = v` on an insertion-ordered dictionary,
modelled on an association list with unique keys: an existing key keeps its
position and gets the new value; a new key is appended at the end. -/
def dictInsert {α : Type} : List (String × α) → String → α → List (String × α)
  | [], k, v => [(k, v)]
  | p :: d, k, v => if p.1 = k then (k, v) :: d else p :: dictInsert d k v

/-- One iteration of the query loop of `fetch_search_results` (server.py
lines 102-157).  The state is the dict built so far (`query_search_results`)
and the flat queue of results scheduled for content fetch
(`results_to_update` / `fetch_tasks`, in task-creation order).  Because the
Python code mutates the queued `SearchResult` objects in place after the
fan-in, the dict stores each result's queue position rather than a copy.  A
page failure is caught and stores `[]` for the query; otherwise the extracted
results are stored under the query and appended to the fetch queue. -/
def queryStep (env : String → PageOutcome) (results_max : Nat)
    (st : List (String × List Nat) × List SearchResult) (query : String) :
    List (String × List Nat) × List SearchResult :=
  match env query with
  | .failure _ => (dictInsert st.1 query [], st.2)
  | .success nodes =>
    let rs := extractLoop results_max nodes 0
    (dictInsert st.1 query ((List.range rs.length).map (fun i => st.2.length + i)),
      st.2 ++ rs)

/-- The sequential first phase of `fetch_search_results`: fold the query loop
over the supplied queries, starting from an empty dict and an empty queue. -/
def fetchPhase1 (env : String → PageOutcome) (results_max : Nat)
    (queries : List String) : List (String × List Nat) × List SearchResult :=
  queries.foldl (queryStep env results_max) ([], [])

/-- Recording one gathered fetch outcome into its own result (server.py
lines 164-173): an exception becomes the `"Error fetching content: <cause>"`
sentinel, a returned text is stored as the content. -/
def applyOutcome (r : SearchResult) (o : Except String String) : SearchResult :=
  match o with
  | .error e => { r with content := some ("Error fetching content: " ++ e) }
  | .ok c => { r with content := some c }

/-- The fan-in after `asyncio.gather(..., return_exceptions=True)` (server.py
lines 159-173): the i-th queued result receives the i-th gathered outcome. -/
def fanIn : List SearchResult → List (Except String String) → List SearchResult
  | [], _ => []
  | rs, [] => rs
  | r :: rs, o :: os => applyOutcome r o :: fanIn rs os

/-- `BrowserManager.fetch_search_results` (server.py lines 95-180): phase 1
builds the dict and the fetch queue, the fan-in fills each queued result's
content, and the returned mapping is the dict with its stored queue positions
resolved against the updated queue (modelling the in-place mutation of the
shared `SearchResult` objects). -/
def fetch_search_results (env : String → PageOutcome)
    (outcomes : List (Except String String))
    (queries : List String) (results_max : Nat) :
    List (String × List SearchResult) :=
  ((fetchPhase1 env results_max queries).1).map
    (fun p => (p.1, p.2.filterMap
      (fun i => (fanIn (fetchPhase1 env results_max queries).2 outcomes).get? i)))

/-- Whether one character list starts with another (on the code points). -/
def charsStartWith : List Char → List Char → Bool
  | _, [] => true
  | [], _ :: _ => false
  | c :: cs, p :: ps => c == p && charsStartWith cs ps

/-- Python `s.startswith(pat)` over the string's code points. -/
def strStartsWith (s pat : String) : Bool :=
  charsStartWith s.data pat.data

/-- Python `s[:n]`: the first `n` code points of `s`. -/
def strTake (s : String) (n : Nat) : String :=
  String.mk (s.data.take n)

/-- Python `s.split()` with no separator: split on runs of whitespace,
dropping empty pieces; `acc` holds the current token's characters reversed. -/
def pySplitAux : List Char → List Char → List String
  | [], acc => if acc.isEmpty then [] else [String.mk acc.reverse]
  | ch :: rest, acc =>
    if ch.isWhitespace then
      if acc.isEmpty then pySplitAux rest []
      else String.mk acc.reverse :: pySplitAux rest []
    else pySplitAux rest (ch :: acc)

/-- Python `s.split()` on a string. -/
def pySplit (s : String) : List String :=
  pySplitAux s.data []

/-- Python `" ".join(s.split())` (server.py line 283): split on whitespace
runs and rejoin with single spaces. -/
def cleanContent (s : String) : String :=
  " ".intercalate (pySplit s)

/-- The display content chosen for one result (server.py lines 276-290):
absent or empty `content` gives the fixed placeholder; content starting with
an error sentinel is shown verbatim; otherwise the whitespace-normalized
content, truncated to `content_char_limit` characters with a `"..."` marker
appended when the limit is positive and exceeded.  Note that the
`snippet_display` value computed at line 275 is passed to `str.format` but the
result template (lines 255-259) has no snippet placeholder, so it never
appears in the output. -/
def displayContent (content : Option String) (content_char_limit : Int) : String :=
  match content with
  | none => "No content fetched."
  | some c =>
    if c.data.isEmpty then "No content fetched."
    else if strStartsWith c "Error fetching content:"
        || strStartsWith c "Error gathering content:" then c
    else
      let cleaned := cleanContent c
      if content_char_limit > 0 ∧ (cleaned.length : Int) > content_char_limit then
        strTake cleaned content_char_limit.toNat ++ "..."
      else cleaned

/-- One rendered result block, instantiating the dedented and stripped
`result_template` of server.py lines 255-259. -/
def formatResult (result_number : Nat) (r : SearchResult)
    (content_char_limit : Int) : String :=
  toString result_number ++ ": " ++ r.title ++ "\nURL: " ++ r.url
    ++ "\nContent: " ++ displayContent r.content content_char_limit

/-- The inner result loop of server.py lines 274-301: `result_counter` starts
at the given value and increases by one per result of this list. -/
def formatResultsList (content_char_limit : Int) (result_counter : Nat) :
    List SearchResult → List String
  | [] => []
  | r :: rs =>
    formatResult result_counter r content_char_limit
      :: formatResultsList content_char_limit (result_counter + 1) rs

/-- One query section (server.py lines 261-266 and 270-314): the
`query_template` wrapping either the double-newline-joined result blocks or
the per-query "no results" placeholder.  `result_counter` is initialized to 1
at the top of each query iteration (line 272). -/
def formatQuery (content_char_limit : Int) (query : String)
    (results : List SearchResult) : String :=
  let formatted := formatResultsList content_char_limit 1 results
  "-----\nResults for search query \"" ++ query ++ "\":\n-----\n"
    ++ (if formatted.isEmpty then "No results found for this query."
        else "\n\n".intercalate formatted)

/-- `format_search_results` (server.py lines 252-319). -/
def format_search_results (search_results : List (String × List SearchResult))
    (content_char_limit : Int) : String :=
  let formatted_queries :=
    search_results.map (fun p => formatQuery content_char_limit p.1 p.2)
  if formatted_queries.isEmpty then "No results found for any query."
  else "\n\n".intercalate formatted_queries

/-- C10: a fetched-but-empty content renders the fixed "No content fetched."
placeholder, exactly as absent content does — at the formatting interface an
empty-string content is indistinguishable from content never attempted. -/
theorem empty_content_renders_placeholder (t u : String) (sn : Option String)
    (limit : Int) :
    displayContent (some "") limit = "No content fetched." ∧
    displayContent none limit = "No content fetched." ∧
    (∀ n, formatResult n { title := t, url := u, snippet := sn, content := some "" } limit
        = formatResult n { title := t, url := u, snippet := sn, content := none } limit) := by
  exact ⟨rfl, rfl, fun n => rfl⟩

/-- C9: `format_search_results` is deterministic — two calls on identical
inputs return byte-for-byte identical strings (the embedding is a pure
function, as the source function performs no I/O). -/
theorem format_search_results_deterministic
    (s₁ s₂ : List (String × List SearchResult)) (l₁ l₂ : Int)
    (hs : s₁ = s₂) (hl : l₁ = l₂) :
    format_search_results s₁ l₁ = format_search_results s₂ l₂ := by
  rw [hs, hl]

/-- C9 witness: the determinism theorem applied at a concrete input. -/
theorem format_search_results_deterministic_witness :
    format_search_results [("q", [{ title := "T", url := "u" }])] 0
      = format_search_results [("q", [{ title := "T", url := "u" }])] 0 :=
  format_search_results_deterministic _ _ 0 0 rfl rfl

/-- C1: evaluation at the failing input.  Two queries, each with one result:
the code restarts `result_counter` at 1 inside every query iteration
(server.py line 272), so both sections number their result `1:` — the second
result is not numbered `2:` as the continuous-numbering claim (and the tool's
own docstring at line 226) requires. -/
theorem counter_resets_per_query :
    format_search_results
      [("alpha", [{ title := "T1", url := "u1", snippet := none, content := none }]),
       ("beta", [{ title := "T2", url := "u2", snippet := none, content := none }])] 0
    = "-----\nResults for search query \"alpha\":\n-----\n1: T1\nURL: u1\nContent: No content fetched.\n\n-----\nResults for search query \"beta\":\n-----\n1: T2\nURL: u2\nContent: No content fetched." := by
  rfl

/-- C2 counterexample: a result with a present snippet and no content renders
the fixed placeholder, not the snippet — the snippet is never displayed. -/
theorem snippet_fallback_counterexample :
    formatResult 1 { title := "T", url := "u", snippet := some "SNIP", content := none } 0
        = "1: T\nURL: u\nContent: No content fetched." ∧
      formatResult 1 { title := "T", url := "u", snippet := some "SNIP", content := none } 0
        ≠ "1: T\nURL: u\nContent: SNIP" := by
  exact ⟨rfl, by decide⟩

/-- C3 counterexample: the same query supplied twice produces a single entry
in the returned mapping (Python dict assignment overwrites), not one entry
per occurrence. -/
theorem duplicate_queries_collapse :
    (fetch_search_results
        (fun _ => .success [{ title := some "T", url := some "u", snippet := none }])
        [Except.ok "C", Except.ok "C"] ["q", "q"] 5).length = 1 := by
  rfl

/-- C4 counterexample: with limit 5, a content holding the error sentinel is
rendered verbatim with no truncation marker, at 31 characters — a rendered
content segment exceeding the limit. -/
theorem truncation_bound_counterexample :
    (5 : Int) > 0 ∧
    displayContent (some "Error fetching content: timeout") 5
      = "Error fetching content: timeout" ∧
    ¬ (("Error fetching content: timeout").length ≤ 5) := by
  refine ⟨by decide, rfl, by decide⟩

/-- A character list starting with a non-empty pattern is non-empty. -/
theorem charsStartWith_ne_nil {l p : List Char} (hp : p ≠ [])
    (h : charsStartWith l p = true) : l ≠ [] := by
  cases p with
  | nil => exact absurd rfl hp
  | cons a as =>
    cases l with
    | nil => simp [charsStartWith] at h
    | cons b bs => simp

/-- A string other than `""` has a non-empty character list. -/
theorem data_isEmpty_eq_false {s : String} (h : s ≠ "") : s.data.isEmpty = false := by
  cases s with
  | mk l =>
    cases l with
    | nil => exact absurd rfl h
    | cons a as => rfl

/-- A string starting with an error sentinel has a non-empty character list. -/
theorem sentinel_data_isEmpty_eq_false {s : String}
    (h : strStartsWith s "Error fetching content:" = true) :
    s.data.isEmpty = false := by
  have hne : s.data ≠ [] := by
    refine charsStartWith_ne_nil (p := "Error fetching content:".data) (by decide) ?_
    exact h
  cases hd : s.data with
  | nil => exact absurd hd hne
  | cons a as => rfl

/-- Length of the Python slice `s[:n]`. -/
theorem strTake_length (s : String) (n : Nat) :
    (strTake s n).length = min n s.length :=
  List.length_take n s.data

/-- The extraction loop started at count `c` returns the first
`results_max - c` nodes passing the title/url guard, in document order. -/
theorem extractLoop_eq (results_max : Nat) (nodes : List ResultNode) (c : Nat) :
    extractLoop results_max nodes c
      = ((nodes.filter nodeValid).take (results_max - c)).map mkSearchResult := by
  induction nodes generalizing c with
  | nil => simp [extractLoop]
  | cons n rest ih =>
    by_cases hv : nodeValid n
    · by_cases hc : c ≥ results_max
      · have h0 : results_max - c = 0 := Nat.sub_eq_zero_of_le hc
        simp [extractLoop, hv, hc, h0]
      · have h1 : results_max - c = (results_max - (c + 1)) + 1 := by omega
        simp [extractLoop, hv, hc, h1, ih]
    · simp [extractLoop, hv, ih]

/-- C8: for every query's node list, extraction returns the nodes passing the
title/url guard, in document order, capped at `results_max`; a node missing
title or URL is skipped without counting against the cap (it simply does not
occur in the filtered sequence being capped). -/
theorem extraction_capped_in_document_order (nodes : List ResultNode)
    (results_max : Nat) :
    extractLoop results_max nodes 0
        = ((nodes.filter nodeValid).take results_max).map mkSearchResult ∧
      (extractLoop results_max nodes 0).length ≤ results_max := by
  have h := extractLoop_eq results_max nodes 0
  refine ⟨by simpa using h, ?_⟩
  rw [h]
  simp [List.length_take]

/-- C2 (amended): per result the display content is chosen by this priority —
an error sentinel in `content` is shown verbatim; otherwise a present
non-empty `content` is shown normalized (possibly truncated); otherwise the
fixed "No content fetched." placeholder is shown.  The snippet is never used
as display content: the rendered block is independent of the snippet field. -/
theorem display_content_priority (n : Nat) (t u : String) (sn sn' : Option String)
    (c : Option String) (limit : Int) :
    (formatResult n { title := t, url := u, snippet := sn, content := c } limit
        = formatResult n { title := t, url := u, snippet := sn', content := c } limit) ∧
      (c = none → displayContent c limit = "No content fetched.") ∧
      (∀ s, c = some s → strStartsWith s "Error fetching content:" = true →
        displayContent c limit = s) ∧
      (∀ s, c = some s → s ≠ "" →
        strStartsWith s "Error fetching content:" = false →
        strStartsWith s "Error gathering content:" = false →
        displayContent c limit = cleanContent s ∨
          displayContent c limit = strTake (cleanContent s) limit.toNat ++ "...") := by
  refine ⟨rfl, ?_, ?_, ?_⟩
  · intro hc; subst hc; rfl
  · intro s hc hs
    subst hc
    simp [displayContent, sentinel_data_isEmpty_eq_false hs, hs]
  · intro s hc hne hf hg
    subst hc
    by_cases htr : limit > 0 ∧ ((cleanContent s).length : Int) > limit
    · right
      simp [displayContent, data_isEmpty_eq_false hne, hf, hg, htr]
    · left
      simp [displayContent, data_isEmpty_eq_false hne, hf, hg, htr]

/-- C2 (amended) witness: the priority theorem applied at a concrete result
whose content is present, non-empty and not a sentinel. -/
theorem display_content_priority_witness :
    displayContent (some "hello  world") 3 = cleanContent "hello  world" ∨
      displayContent (some "hello  world") 3
        = strTake (cleanContent "hello  world") (3 : Int).toNat ++ "..." :=
  (display_content_priority 1 "T" "u" (some "a") none (some "hello  world") 3).2.2.2
    "hello  world" rfl (by decide) (by decide) (by decide)

/-- C4 (amended): for every positive `content_char_limit`, the rendered
content segment of a present, non-empty, non-sentinel content never exceeds
the limit once the truncation marker is excluded — content longer than the
limit is cut to exactly `content_char_limit` characters with the marker
appended — and a limit of 0 means unlimited.  (Error sentinels and the fixed
placeholder are rendered verbatim, outside this bound; see the
counterexample.) -/
theorem truncation_bound (c : String) (limit : Int) (hne : c ≠ "")
    (hf : strStartsWith c "Error fetching content:" = false)
    (hg : strStartsWith c "Error gathering content:" = false) :
    (0 < limit → ∃ seg : String,
      (displayContent (some c) limit = seg ∨
        displayContent (some c) limit = seg ++ "...") ∧ (seg.length : Int) ≤ limit) ∧
    (limit = 0 → displayContent (some c) limit = cleanContent c) := by
  constructor
  · intro hpos
    by_cases htr : limit > 0 ∧ ((cleanContent c).length : Int) > limit
    · refine ⟨strTake (cleanContent c) limit.toNat, Or.inr ?_, ?_⟩
      · simp [displayContent, data_isEmpty_eq_false hne, hf, hg, htr]
      · have h1 : (strTake (cleanContent c) limit.toNat).length ≤ limit.toNat := by
          rw [strTake_length]
          exact Nat.min_le_left _ _
        omega
    · refine ⟨cleanContent c, Or.inl ?_, ?_⟩
      · simp [displayContent, data_isEmpty_eq_false hne, hf, hg, htr]
      · push_neg at htr
        exact htr hpos
  · intro h0
    subst h0
    simp [displayContent, data_isEmpty_eq_false hne, hf, hg]

/-- C4 (amended) witness: the truncation bound applied at a concrete content
of 7 characters with limit 3. -/
theorem truncation_bound_witness :
    ∃ seg : String,
      (displayContent (some "aaaaaaa") 3 = seg ∨
        displayContent (some "aaaaaaa") 3 = seg ++ "...") ∧ (seg.length : Int) ≤ 3 :=
  (truncation_bound "aaaaaaa" 3 (by decide) (by decide) (by decide)).1 (by decide)

/-- Length is preserved by the fan-in: every queued result is still present,
with its own slot, after the gather completes. -/
theorem fanIn_length (rs : List SearchResult) (os : List (Except String String)) :
    (fanIn rs os).length = rs.length := by
  induction rs generalizing os with
  | nil => cases os <;> rfl
  | cons r rs ih =>
    cases os with
    | nil => rfl
    | cons o os' => simp [fanIn, ih]

/-- The i-th queued result receives exactly the i-th gathered outcome. -/
theorem fanIn_get (rs : List SearchResult) (os : List (Except String String))
    (i : Nat) (r : SearchResult) (o : Except String String)
    (hr : rs.get? i = some r) (ho : os.get? i = some o) :
    (fanIn rs os).get? i = some (applyOutcome r o) := by
  induction rs generalizing os i with
  | nil => simp at hr
  | cons a as ih =>
    cases os with
    | nil => simp at ho
    | cons b bs =>
      cases i with
      | zero =>
        simp at hr ho
        subst hr; subst ho
        rfl
      | succ j =>
        rw [List.get?_cons_succ] at hr ho
        rw [show fanIn (a :: as) (b :: bs) = applyOutcome a b :: fanIn as bs from rfl,
          List.get?_cons_succ]
        exact ih bs j hr ho

/-- C5: after the content-fetch fan-in, a failed task's own result holds the
`"Error fetching content: <cause>"` sentinel, every task that succeeded still
holds its fetched text, and every queued result is still present (the fan-in
consumes one gathered outcome per scheduled task) — one task's failure never
propagates to or corrupts its siblings. -/
theorem fetch_failure_isolated (rs : List SearchResult)
    (os : List (Except String String)) :
    (fanIn rs os).length = rs.length ∧
      (∀ i r e, rs.get? i = some r → os.get? i = some (Except.error e) →
        (fanIn rs os).get? i
          = some { r with content := some ("Error fetching content: " ++ e) }) ∧
      (∀ i r c, rs.get? i = some r → os.get? i = some (Except.ok c) →
        (fanIn rs os).get? i = some { r with content := some c }) := by
  refine ⟨fanIn_length rs os, ?_, ?_⟩
  · intro i r e hr ho
    exact fanIn_get rs os i r _ hr ho
  · intro i r c hr ho
    exact fanIn_get rs os i r _ hr ho

/-- C5 witness: three queued fetches where task 2 fails — its result carries
the sentinel while tasks 1 and 3 keep their fetched text. -/
theorem fetch_failure_isolated_witness :
    (fanIn
        [{ title := "T1", url := "u1" }, { title := "T2", url := "u2" },
          { title := "T3", url := "u3" }]
        [Except.ok "C1", Except.error "boom", Except.ok "C3"]).get? 1
      = some { title := "T2", url := "u2", snippet := none,
               content := some ("Error fetching content: " ++ "boom") } :=
  (fetch_failure_isolated
      [{ title := "T1", url := "u1" }, { title := "T2", url := "u2" },
        { title := "T3", url := "u3" }]
      [Except.ok "C1", Except.error "boom", Except.ok "C3"]).2.1
    1 { title := "T2", url := "u2" } "boom" rfl rfl

/-- `dictInsert` stores the inserted value under its key. -/
theorem lookup_dictInsert_self {α : Type} (d : List (String × α)) (k : String)
    (v : α) : (dictInsert d k v).lookup k = some v := by
  induction d with
  | nil => simp [dictInsert, List.lookup]
  | cons p d ih =>
    obtain ⟨pk, pv⟩ := p
    by_cases h : pk = k
    · subst h
      simp [dictInsert, List.lookup]
    · have hbe : (k == pk) = false := beq_eq_false_iff_ne.mpr (fun he => h he.symm)
      simp [dictInsert, h, List.lookup, hbe, ih]

/-- `dictInsert` at another key leaves a key's lookup unchanged. -/
theorem lookup_dictInsert_ne {α : Type} (d : List (String × α)) (k q : String)
    (v : α) (h : q ≠ k) : (dictInsert d k v).lookup q = d.lookup q := by
  have hbe : (q == k) = false := beq_eq_false_iff_ne.mpr h
  induction d with
  | nil => simp [dictInsert, List.lookup, hbe]
  | cons p d ih =>
    obtain ⟨pk, pv⟩ := p
    by_cases hp : pk = k
    · subst hp
      simp [dictInsert, List.lookup, hbe]
    · by_cases hq : pk = q
      · subst hq
        simp [dictInsert, hp, List.lookup]
      · have hbe2 : (q == pk) = false :=
          beq_eq_false_iff_ne.mpr (fun he => hq he.symm)
        simp [dictInsert, hp, List.lookup, hbe2, ih]

/-- Key membership after a `dictInsert`. -/
theorem mem_keys_dictInsert {α : Type} (d : List (String × α)) (k q : String)
    (v : α) : q ∈ (dictInsert d k v).map Prod.fst ↔ q = k ∨ q ∈ d.map Prod.fst := by
  induction d with
  | nil => simp [dictInsert]
  | cons p d ih =>
    obtain ⟨pk, pv⟩ := p
    by_cases hp : pk = k
    · subst hp
      simp [dictInsert]
    · simp [dictInsert, hp, ih]
      tauto

/-- `dictInsert` preserves distinctness of the keys. -/
theorem nodup_keys_dictInsert {α : Type} (d : List (String × α)) (k : String)
    (v : α) (h : (d.map Prod.fst).Nodup) :
    ((dictInsert d k v).map Prod.fst).Nodup := by
  induction d with
  | nil => simp [dictInsert]
  | cons p d ih =>
    obtain ⟨pk, pv⟩ := p
    simp only [List.map_cons, List.nodup_cons] at h
    by_cases hp : pk = k
    · subst hp
      simpa [dictInsert] using h
    · simp only [dictInsert, if_neg hp, List.map_cons, List.nodup_cons]
      refine ⟨?_, ih h.2⟩
      rw [mem_keys_dictInsert]
      rintro (h1 | h2)
      · exact hp h1
      · exact h.1 h2

/-- Key membership after one query step: the processed query's key is added,
every other key is preserved (both the failure and the success branch store
an entry for the query). -/
theorem mem_keys_queryStep (env : String → PageOutcome) (m : Nat)
    (st : List (String × List Nat) × List SearchResult) (q' q : String) :
    q ∈ ((queryStep env m st q').1.map Prod.fst)
      ↔ q = q' ∨ q ∈ st.1.map Prod.fst := by
  cases henv : env q' <;> simp only [queryStep, henv] <;>
    exact mem_keys_dictInsert _ _ _ _

/-- One query step preserves distinctness of the keys. -/
theorem nodup_keys_queryStep (env : String → PageOutcome) (m : Nat)
    (st : List (String × List Nat) × List SearchResult) (q' : String)
    (h : (st.1.map Prod.fst).Nodup) :
    (((queryStep env m st q').1).map Prod.fst).Nodup := by
  cases henv : env q' <;> simp only [queryStep, henv] <;>
    exact nodup_keys_dictInsert _ _ _ h

/-- After folding the query loop, a key is present iff it was present before
or is one of the processed queries. -/
theorem mem_keys_foldl (env : String → PageOutcome) (m : Nat)
    (qs : List String) (st : List (String × List Nat) × List SearchResult)
    (q : String) :
    q ∈ ((qs.foldl (queryStep env m) st).1.map Prod.fst)
      ↔ q ∈ st.1.map Prod.fst ∨ q ∈ qs := by
  induction qs generalizing st with
  | nil => simp
  | cons q' qs ih =>
    rw [List.foldl_cons, ih, mem_keys_queryStep]
    simp only [List.mem_cons]
    tauto

/-- Folding the query loop preserves distinctness of the keys. -/
theorem nodup_keys_foldl (env : String → PageOutcome) (m : Nat)
    (qs : List String) (st : List (String × List Nat) × List SearchResult)
    (h : (st.1.map Prod.fst).Nodup) :
    (((qs.foldl (queryStep env m) st).1).map Prod.fst).Nodup := by
  induction qs generalizing st with
  | nil => exact h
  | cons q' qs ih => exact ih _ (nodup_keys_queryStep env m st q' h)

/-- If a query's page always fails, its dict entry after the fold is `[]`. -/
theorem lookup_foldl_failure (env : String → PageOutcome) (m : Nat)
    (q msg : String) (henv : env q = PageOutcome.failure msg) :
    ∀ (qs : List String) (st : List (String × List Nat) × List SearchResult),
      (q ∈ qs ∨ st.1.lookup q = some []) →
      ((qs.foldl (queryStep env m) st).1).lookup q = some [] := by
  intro qs
  induction qs with
  | nil =>
    intro st h
    rcases h with h | h
    · simp at h
    · exact h
  | cons q' qs ih =>
    intro st h
    rw [List.foldl_cons]
    apply ih
    by_cases hq : q = q'
    · subst hq
      right
      simp only [queryStep, henv]
      exact lookup_dictInsert_self _ _ _
    · rcases h with h | h
      · rcases List.mem_cons.mp h with h' | h'
        · exact absurd h' hq
        · exact Or.inl h'
      · right
        cases henv' : env q' <;>
          simp only [queryStep, henv'] <;>
          rw [lookup_dictInsert_ne _ _ _ _ hq] <;> exact h

/-- Lookup commutes with mapping over the values of an association list. -/
theorem lookup_map_values {α β : Type} (d : List (String × α)) (f : α → β)
    (q : String) :
    ((d.map (fun p => (p.1, f p.2))).lookup q) = (d.lookup q).map f := by
  induction d with
  | nil => rfl
  | cons p d ih =>
    obtain ⟨pk, pv⟩ := p
    by_cases h : pk = q
    · subst h
      simp [List.lookup]
    · have hbe : (q == pk) = false :=
        beq_eq_false_iff_ne.mpr (fun he => h he.symm)
      simp [List.lookup, hbe, ih]

/-- A key has a value in an association list iff it occurs among the keys. -/
theorem exists_val_iff_mem_keys {α : Type} (l : List (String × α)) (q : String) :
    (∃ v, (q, v) ∈ l) ↔ q ∈ l.map Prod.fst := by
  constructor
  · rintro ⟨v, hv⟩
    exact List.mem_map_of_mem Prod.fst hv
  · intro h
    obtain ⟨p, hp, hq⟩ := List.mem_map.mp h
    refine ⟨p.2, ?_⟩
    rw [← hq]
    exact hp

/-- The returned mapping of `fetch_search_results` has exactly the keys of
the phase-1 dict. -/
theorem keys_fetch_search_results (env : String → PageOutcome)
    (outcomes : List (Except String String)) (queries : List String)
    (results_max : Nat) :
    (fetch_search_results env outcomes queries results_max).map Prod.fst
      = ((fetchPhase1 env results_max queries).1).map Prod.fst := by
  unfold fetch_search_results
  rw [List.map_map]
  rfl

/-- A truthy optional string extracts to a non-empty string. -/
theorem optTruthy_getD {o : Option String} (h : optTruthy o = true) :
    o.getD "" ≠ "" := by
  cases o with
  | none => simp [optTruthy] at h
  | some s =>
    intro he
    have hs : s = "" := he
    subst hs
    exact absurd h (by decide)

/-- Every result emitted by the extraction loop has a non-empty title and a
non-empty url: it was built from a node passing the truthiness guard. -/
theorem extract_mem_title_url {results_max : Nat} {nodes : List ResultNode}
    {r : SearchResult} (h : r ∈ extractLoop results_max nodes 0) :
    r.title ≠ "" ∧ r.url ≠ "" := by
  rw [extractLoop_eq] at h
  obtain ⟨n, hn, rfl⟩ := List.mem_map.mp h
  have hn' : n ∈ nodes.filter nodeValid := List.mem_of_mem_take hn
  have hv : nodeValid n = true := (List.mem_filter.mp hn').2
  rw [nodeValid, Bool.and_eq_true] at hv
  exact ⟨optTruthy_getD hv.1, optTruthy_getD hv.2⟩

/-- The fetch queue built by phase 1 contains only results with non-empty
title and url. -/
theorem fetchPhase1_queue_title_url (env : String → PageOutcome)
    (results_max : Nat) (queries : List String) :
    ∀ r ∈ (fetchPhase1 env results_max queries).2, r.title ≠ "" ∧ r.url ≠ "" := by
  unfold fetchPhase1
  have main : ∀ (qs : List String)
      (st : List (String × List Nat) × List SearchResult),
      (∀ r ∈ st.2, r.title ≠ "" ∧ r.url ≠ "") →
      ∀ r ∈ (qs.foldl (queryStep env results_max) st).2,
        r.title ≠ "" ∧ r.url ≠ "" := by
    intro qs
    induction qs with
    | nil => intro st h; exact h
    | cons q qs ih =>
      intro st h
      rw [List.foldl_cons]
      apply ih
      intro r hr
      cases henv : env q with
      | failure msg =>
        simp only [queryStep, henv] at hr
        exact h r hr
      | success nodes =>
        simp only [queryStep, henv] at hr
        rcases List.mem_append.mp hr with h1 | h1
        · exact h r h1
        · exact extract_mem_title_url h1
  exact main queries ([], []) (by simp)

/-- The fan-in never changes a result's title or url. -/
theorem applyOutcome_title_url (r : SearchResult) (o : Except String String) :
    (applyOutcome r o).title = r.title ∧ (applyOutcome r o).url = r.url := by
  cases o <;> exact ⟨rfl, rfl⟩

/-- Every element of the fan-in output is a queued result, possibly with its
content updated by its own task's outcome. -/
theorem fanIn_mem {rs : List SearchResult} {os : List (Except String String)}
    {x : SearchResult} (hx : x ∈ fanIn rs os) :
    x ∈ rs ∨ ∃ r ∈ rs, ∃ o, x = applyOutcome r o := by
  induction rs generalizing os with
  | nil =>
    rw [show fanIn [] os = [] from by cases os <;> rfl] at hx
    simp at hx
  | cons a as ih =>
    cases os with
    | nil => exact Or.inl hx
    | cons b bs =>
      rw [show fanIn (a :: as) (b :: bs) = applyOutcome a b :: fanIn as bs
        from rfl] at hx
      rcases List.mem_cons.mp hx with h | h
      · exact Or.inr ⟨a, List.mem_cons_self a as, b, h⟩
      · rcases ih h with h1 | ⟨r, hrm, o, he⟩
        · exact Or.inl (List.mem_cons_of_mem a h1)
        · exact Or.inr ⟨r, List.mem_cons_of_mem a hrm, o, he⟩

/-- C6: every SearchResult present in any list of the mapping returned by
fetch_search_results has both title and url set and non-empty — a node
missing (or empty in) either field is discarded by the extraction guard
before being added to any list, so no partial result is ever visible to the
fetch or formatting phases. -/
theorem results_have_title_and_url (env : String → PageOutcome)
    (outcomes : List (Except String String)) (queries : List String)
    (results_max : Nat) (q : String) (rs : List SearchResult)
    (hmem : (q, rs) ∈ fetch_search_results env outcomes queries results_max) :
    ∀ r ∈ rs, r.title ≠ "" ∧ r.url ≠ "" := by
  intro r hr
  unfold fetch_search_results at hmem
  obtain ⟨p, hp, he⟩ := List.mem_map.mp hmem
  have hrs : rs = p.2.filterMap
      (fun i => (fanIn (fetchPhase1 env results_max queries).2 outcomes).get? i) := by
    have h2 := congrArg Prod.snd he
    simpa using h2.symm
  rw [hrs] at hr
  obtain ⟨i, hi, hget⟩ := List.mem_filterMap.mp hr
  have hup : r ∈ fanIn (fetchPhase1 env results_max queries).2 outcomes :=
    List.get?_mem hget
  rcases fanIn_mem hup with h1 | ⟨r0, hr0, o, he0⟩
  · exact fetchPhase1_queue_title_url env results_max queries r h1
  · have h0 := fetchPhase1_queue_title_url env results_max queries r0 hr0
    have ht := applyOutcome_title_url r0 o
    subst he0
    refine ⟨?_, ?_⟩
    · rw [ht.1]; exact h0.1
    · rw [ht.2]; exact h0.2

/-- C6 witness: the invariant applied to a concrete run of one query with one
valid node whose content fetch succeeded. -/
theorem results_have_title_and_url_witness :
    ({ title := "T", url := "u", snippet := none,
       content := some "C" } : SearchResult).title ≠ "" ∧
      ({ title := "T", url := "u", snippet := none,
         content := some "C" } : SearchResult).url ≠ "" :=
  results_have_title_and_url
    (fun _ => PageOutcome.success
      [{ title := some "T", url := some "u", snippet := none }])
    [Except.ok "C"] ["q"] 5 "q"
    [{ title := "T", url := "u", snippet := none, content := some "C" }]
    (by decide)
    { title := "T", url := "u", snippet := none, content := some "C" }
    (by decide)

/-- C7: when the search page for one query fails (navigation or results-wait
timeout, selector miss), fetch_search_results recovers locally: that query's
entry in the returned mapping is the empty list, and every supplied query
still has an entry — processing of the remaining queries continues. -/
theorem failed_query_entry_is_empty (env : String → PageOutcome)
    (outcomes : List (Except String String)) (queries : List String)
    (results_max : Nat) (q msg : String) (hq : q ∈ queries)
    (henv : env q = PageOutcome.failure msg) :
    (fetch_search_results env outcomes queries results_max).lookup q = some [] ∧
      ∀ q' ∈ queries, ∃ rs,
        (q', rs) ∈ fetch_search_results env outcomes queries results_max := by
  constructor
  · unfold fetch_search_results fetchPhase1
    rw [lookup_map_values,
      lookup_foldl_failure env results_max q msg henv queries ([], []) (Or.inl hq)]
    rfl
  · intro q' hq'
    rw [exists_val_iff_mem_keys, keys_fetch_search_results]
    unfold fetchPhase1
    rw [mem_keys_foldl]
    simp [hq']

/-- C7 witness: two queries where the second one's page fails — its entry is
the empty list. -/
theorem failed_query_entry_is_empty_witness :
    (fetch_search_results
        (fun q => if q = "bad" then PageOutcome.failure "boom"
          else PageOutcome.success
            [{ title := some "T", url := some "u", snippet := none }])
        [Except.ok "C"] ["good", "bad"] 5).lookup "bad" = some [] :=
  (failed_query_entry_is_empty
      (fun q => if q = "bad" then PageOutcome.failure "boom"
        else PageOutcome.success
          [{ title := some "T", url := some "u", snippet := none }])
      [Except.ok "C"] ["good", "bad"] 5 "bad" "boom"
      (by decide) (by decide)).1

/-- C3 (amended): the mapping returned by fetch_search_results has exactly
one entry per distinct query string — duplicate occurrences collapse into a
single entry (a later occurrence overwrites the value stored at the first
occurrence's position, as Python dict assignment does) — and a query string
has an entry iff it was supplied. -/
theorem one_entry_per_distinct_query (env : String → PageOutcome)
    (outcomes : List (Except String String)) (queries : List String)
    (results_max : Nat) :
    ((fetch_search_results env outcomes queries results_max).map Prod.fst).Nodup ∧
      ∀ q, (∃ rs, (q, rs) ∈ fetch_search_results env outcomes queries results_max)
        ↔ q ∈ queries := by
  constructor
  · rw [keys_fetch_search_results]
    unfold fetchPhase1
    exact nodup_keys_foldl env results_max queries ([], []) (by simp)
  · intro q
    rw [exists_val_iff_mem_keys, keys_fetch_search_results]
    unfold fetchPhase1
    rw [mem_keys_foldl]
    simp
